import Mathlib

/-!
Shallow embedding of the url_shortener service core
(`internal/database/urls.go`, `internal/handlers/handlers.go`,
`internal/redis` cache client), for checking the specification's claims.

Machine times (`time.Time`, SQL datetime) are modelled as `Int` instants;
`t.Before(now)` is strict `t < now`, and the SQL filter
`expires_at > datetime('now')` is strict `now < t`.
UUIDs are modelled as opaque strings (all claims are about already-parsed ids).
-/

namespace UrlShortener

/-- `database.URL` (internal/database/models.go): the sole entity.
Go pointer-typed optional columns become `Option`. -/
structure URL where
  id : String
  shortPath : String
  destination : String
  title : Option String
  description : Option String
  imageURL : Option String
  expiresAt : Option Int
  createdAt : Int
  updatedAt : Int
deriving Repr, DecidableEq

/-- `database.CreateURLRequest`. -/
structure CreateURLRequest where
  shortPath : Option String
  destination : String
  title : Option String
  description : Option String
  imageURL : Option String
  expiresAt : Option Int
deriving Repr, DecidableEq

/-- `database.UpdateURLRequest`: `ExpiresAt **time.Time` becomes
`Option (Option Int)` — outer `none` = field absent, `some none` =
explicit null, `some (some t)` = set to `t`. -/
structure UpdateURLRequest where
  shortPath : Option String
  destination : Option String
  title : Option String
  description : Option String
  imageURL : Option String
  expiresAt : Option (Option Int)
deriving Repr, DecidableEq

/-- Store-level errors, as the handlers distinguish them by substring
matching on the Go error message: `uniqueConstraint` stands for an error
whose text contains "unique constraint" (Postgres unique-index violation),
`notFoundMsg` for one containing "not found", `other` for the rest. -/
inductive DBErr
  | uniqueConstraint
  | notFoundMsg
  | other
deriving Repr, DecidableEq

/-- The 62-character alphanumeric alphabet (`charset` in urls.go). -/
def charset : List Char :=
  "abcdefghijklmnopqrstuvwxyzABCDEFGHIJKLMNOPQRSTUVWXYZ0123456789".data

/-- `minLength` in urls.go. -/
def minLength : Nat := 6

/-- `maxAttempts` local constant of `generateUniqueShortPath`. -/
def maxAttempts : Nat := 10

/-- `generateRandomString(length)`: character `i` of the result is
`charset[randomIndex]` where `randomIndex` is a fresh uniform draw in
`[0, 62)`. The crypto random source is modelled as a function
`rand : Nat → Fin 62` giving the draw used for position `i`. -/
def generateRandomString (rand : Nat → Fin 62) (length : Nat) : String :=
  String.mk ((List.range length).map (fun i => charset.getD (rand i).val 'a'))

/-- Outcome of `generateUniqueShortPath`: the Go function returns an error
either when a `shortPathExists` store query fails (propagated) or when all
`maxAttempts` attempts collide ("failed to generate unique short path
after 10 attempts"). -/
inductive GenErr
  | exhausted
  | store (e : DBErr)
deriving Repr, DecidableEq

/-- The loop body of `generateUniqueShortPath` (urls.go): at attempt
number `attempt` (from 0), the candidate length is `minLength + attempt`;
the candidate is checked against the store (`ex`, the `shortPathExists`
query, which can itself fail); a free candidate is returned at once, a
collision moves to the next attempt, and the loop ends after
`maxAttempts` attempts. `rand a` is the randomness used by attempt `a`. -/
def generateUniqueShortPathFrom (rand : Nat → Nat → Fin 62)
    (ex : String → Except DBErr Bool) (attempt : Nat) : Except GenErr String :=
  if attempt < maxAttempts then
    let sp := generateRandomString (rand attempt) (minLength + attempt)
    match ex sp with
    | Except.error e => Except.error (GenErr.store e)
    | Except.ok true => generateUniqueShortPathFrom rand ex (attempt + 1)
    | Except.ok false => Except.ok sp
  else
    Except.error GenErr.exhausted
termination_by maxAttempts - attempt
decreasing_by simp_wf; omega

/-- `generateUniqueShortPath` starts at attempt 0. -/
def generateUniqueShortPath (rand : Nat → Nat → Fin 62)
    (ex : String → Except DBErr Bool) : Except GenErr String :=
  generateUniqueShortPathFrom rand ex 0

/-- The candidate generated at attempt `a`. -/
def resolverCand (rand : Nat → Nat → Fin 62) (a : Nat) : String :=
  generateRandomString (rand a) (minLength + a)

/-- An infallible existence oracle, for stating claims about pure
boolean answer sequences. -/
def exOk (ex : String → Bool) : String → Except DBErr Bool :=
  fun s => Except.ok (ex s)

/-! ## The record store

The `urls` table is modelled as a `List URL`; the unique index on
`short_path` and the primary key on `id` mean a well-formed table has
pairwise-distinct ids and short paths. `now : Int` is the store's
`datetime('now')`. -/

/-- The DB invariants enforced by the schema: `id` is the primary key and
`short_path` carries a unique index. -/
def WellFormedStore (urls : List URL) : Prop :=
  urls.Pairwise (fun u v => u.id ≠ v.id ∧ u.shortPath ≠ v.shortPath)

/-- `DB.GetURLByID` (urls.go): `SELECT ... FROM urls WHERE id = $1`,
`sql.ErrNoRows ↦ (nil, nil)`. No expiry filter. -/
def GetURLByID (urls : List URL) (id : String) : Option URL :=
  urls.find? (fun u => u.id == id)

/-- The row filter of `DB.GetURLByShortPath`:
`short_path = $1 AND (expires_at IS NULL OR expires_at > datetime('now'))`. -/
def shortPathRowMatch (now : Int) (sp : String) (u : URL) : Bool :=
  u.shortPath == sp &&
    (match u.expiresAt with
     | none => true
     | some t => decide (now < t))

/-- `DB.GetURLByShortPath` (urls.go): lookup by short path, filtering out
rows whose `expires_at` is set and not in the future. -/
def GetURLByShortPath (urls : List URL) (now : Int) (sp : String) : Option URL :=
  urls.find? (shortPathRowMatch now sp)

/-- `DB.shortPathExists` (urls.go):
`SELECT EXISTS(SELECT 1 FROM urls WHERE short_path = $1)` — no expiry filter. -/
def shortPathExists (urls : List URL) (sp : String) : Bool :=
  urls.any (fun u => u.shortPath == sp)

/-- The field merge performed by `DB.UpdateURL`'s dynamically built
`UPDATE` statement: `updated_at` is always refreshed; each column is
assigned only when the corresponding request field is non-nil;
`ExpiresAt` distinguishes explicit null (`some none` ⇒ `expires_at =
NULL`) from absent (`none` ⇒ column untouched). `id` and `created_at`
are never in the SET list. -/
def applyUpdate (u : URL) (req : UpdateURLRequest) (now : Int) : URL :=
  { u with
    updatedAt := now
    shortPath := match req.shortPath with
      | some s => s
      | none => u.shortPath
    destination := match req.destination with
      | some d => d
      | none => u.destination
    title := match req.title with
      | some t => some t
      | none => u.title
    description := match req.description with
      | some d => some d
      | none => u.description
    imageURL := match req.imageURL with
      | some i => some i
      | none => u.imageURL
    expiresAt := match req.expiresAt with
      | none => u.expiresAt
      | some none => none
      | some (some t) => some t }

/-- `DB.UpdateURL` (urls.go): `UPDATE urls SET ... WHERE id = $n
RETURNING ...`; no matching row ⇒ `sql.ErrNoRows ↦ (nil, nil)`, modelled
as `.ok none`; assigning a `short_path` held by another row violates the
unique index, surfacing a "unique constraint" error. Returns the handler-
visible result together with the table after the statement. -/
def UpdateURL (urls : List URL) (now : Int) (id : String)
    (req : UpdateURLRequest) : Except DBErr (Option URL) × List URL :=
  match urls.find? (fun u => u.id == id) with
  | none => (Except.ok none, urls)
  | some u =>
    let u' := applyUpdate u req now
    if urls.any (fun v => !(v.id == id) && v.shortPath == u'.shortPath) then
      (Except.error DBErr.uniqueConstraint, urls)
    else
      (Except.ok (some u'), urls.map (fun v => if v.id == id then u' else v))

/-- `DB.DeleteURL` (urls.go): `DELETE FROM urls WHERE id = $1`; zero rows
affected ⇒ error "URL not found". -/
def DeleteURL (urls : List URL) (id : String) : Except DBErr (List URL) :=
  let urls' := urls.filter (fun u => !(u.id == id))
  if urls'.length == urls.length then
    Except.error DBErr.notFoundMsg
  else
    Except.ok urls'

/-- `DB.CreateURL` (urls.go): a nil or empty requested `ShortPath` is
replaced by `generateUniqueShortPath`; the `INSERT` assigns a fresh
`id` (`newId`) and server timestamps, and violates the unique index if
the short path is already taken. -/
def CreateURL (rand : Nat → Nat → Fin 62) (urls : List URL) (now : Int)
    (newId : String) (req : CreateURLRequest) :
    Except GenErr (URL × List URL) :=
  let picked : Except GenErr String :=
    match req.shortPath with
    | none => generateUniqueShortPath rand (exOk (shortPathExists urls))
    | some s =>
      if s == "" then generateUniqueShortPath rand (exOk (shortPathExists urls))
      else Except.ok s
  match picked with
  | Except.error e => Except.error e
  | Except.ok sp =>
    if shortPathExists urls sp then
      Except.error (GenErr.store DBErr.uniqueConstraint)
    else
      let u : URL :=
        { id := newId, shortPath := sp, destination := req.destination
          title := req.title, description := req.description
          imageURL := req.imageURL, expiresAt := req.expiresAt
          createdAt := now, updatedAt := now }
      Except.ok (u, urls ++ [u])

/-- Go 64-bit `int` two's-complement wrapping: reduce into
[-2^63, 2^63). 9223372036854775808 = 2^63,
18446744073709551616 = 2^64. -/
def goIntWrap (n : Int) : Int :=
  (n + 9223372036854775808) % 18446744073709551616 - 9223372036854775808

/-- `DB.ListURLs` pagination arithmetic: `offset := (page - 1) * limit`,
computed in Go's wrapping 64-bit `int` (each operation wraps; the
subtraction's operands are Atoi-parsed and clamped, the multiplication
can overflow). -/
def listOffset (page limit : Int) : Int :=
  goIntWrap (goIntWrap (page - 1) * limit)

/-! ## Short-path validation (internal/handlers/handlers.go) -/

/-- Number of bytes of the UTF-8 encoding of a code point — Go's `len`
on a string sums this over its runes. -/
def charUtf8Size (c : Char) : Nat :=
  if c.toNat ≤ 0x7F then 1
  else if c.toNat ≤ 0x7FF then 2
  else if c.toNat ≤ 0xFFFF then 3
  else 4

/-- Go `len(s)`: the UTF-8 byte length of the string. -/
def goStrLen (s : String) : Nat :=
  (s.data.map charUtf8Size).sum

/-- The per-rune test of `isValidShortPath`'s loop:
`a-z`, `A-Z`, `0-9` or `-` (code-point comparisons, as in Go). -/
def isAllowedChar (c : Char) : Bool :=
  (97 ≤ c.toNat && c.toNat ≤ 122) || (65 ≤ c.toNat && c.toNat ≤ 90) ||
    (48 ≤ c.toNat && c.toNat ≤ 57) || (c.toNat == 45)

/-- Go `strings.ToLower` restricted per rune. Go lowercases the full
Unicode table; for deciding equality against the all-ASCII reserved
words the only runes that matter are ASCII uppercase (the sole non-ASCII
rune whose Go lowercase is ASCII is U+212A KELVIN SIGN ↦ 'k', and no
reserved word contains 'k', so the restriction is behaviour-preserving
on this comparison). -/
def goCharToLower (c : Char) : Char :=
  if 65 ≤ c.toNat && c.toNat ≤ 90 then Char.ofNat (c.toNat + 32) else c

/-- Go `strings.ToLower` on a string. -/
def goStrToLower (s : String) : String :=
  String.mk (s.data.map goCharToLower)

/-- The `reservedPaths` literal of `isReservedPath`. -/
def reservedPaths : List String :=
  ["api", "health", "urls",
   "swagger", "docs", "doc", "api-docs", "openapi",
   "admin", "login", "logout", "register", "signup", "signin",
   "dashboard", "profile", "settings", "help", "support", "contact",
   "about", "privacy", "terms", "faq",
   "get", "post", "put", "patch", "delete", "head", "options",
   "css", "js", "png", "jpg", "jpeg", "gif", "svg", "ico", "pdf",
   "txt", "xml", "json"]

/-- `isReservedPath`: lowercase the path, compare against each reserved
word. -/
def isReservedPath (sp : String) : Bool :=
  reservedPaths.any (fun r => goStrToLower sp == r)

/-- `isValidShortPath`: byte length in [1, 255], every rune in the
allowed set, and not a reserved path. -/
def isValidShortPath (sp : String) : Bool :=
  if goStrLen sp < 1 ∨ 255 < goStrLen sp then false
  else if !(sp.data.all isAllowedChar) then false
  else if isReservedPath sp then false
  else true

/-- The handlers' guard `req.ShortPath != nil && *req.ShortPath != ""`:
only then is the supplied path validated. -/
def pathSupplied : Option String → Bool
  | none => false
  | some s => !(s == "")

/-! ## Handler flows (internal/handlers/handlers.go)

Each handler is modelled after the id has been parsed (all claims speak
of well-formed ids). A handler's run is summarised by the HTTP outcome,
the ordered list of cache commands it issued, and (for the flows that
write) the table afterwards. The cache client (internal/redis) keeps
two key namespaces — `url:<short_path>` and `url_id:<id>` — so cache
commands are tagged with the namespace they touch. Cache command
failures are logged and ignored by every handler, so a command in the
trace is exactly an attempted mutation. What a cache `GET` answers is
independent input (the cache may be stale, empty, or down), so the read
flows take the cache's answer as a parameter. -/

/-- A cache command issued by a handler, in the namespace it targets. -/
inductive CacheOp
  | setByPath (key : String) (u : URL)
  | setById (key : String) (u : URL)
  | delByPath (key : String)
  | delById (key : String)
deriving Repr, DecidableEq

/-- Whether a cache command writes the by-id namespace. -/
def CacheOp.writesById : CacheOp → Bool
  | CacheOp.setById _ _ => true
  | _ => false

/-- Outcome of a cache `GET`: a deserialized record, a miss
(`redis.Nil ↦ (nil, nil)`), or a client error `(nil, err)` — the
handlers treat the two nil cases identically. -/
inductive CacheRead
  | hit (u : URL)
  | miss
  | failed
deriving Repr, DecidableEq

/-- HTTP outcome of a handler, carrying the body's record where one is
returned. `panicNilDeref` marks a run that dereferences a nil `*URL`
(a Go runtime panic, not a JSON response). -/
inductive HResp
  | okRecord (u : URL)
  | created (u : URL)
  | htmlPage (u : URL)
  | noContent
  | badRequest
  | notFound
  | conflict
  | serverError
  | panicNilDeref
deriving Repr, DecidableEq

/-- Does the Go error text of this creation failure contain
"unique constraint"? (`%w` wrapping preserves substrings; the
`ExhaustedError` text "failed to generate unique short path after 10
attempts" does not contain it.) -/
def genErrMentionsUniqueConstraint : GenErr → Bool
  | GenErr.store DBErr.uniqueConstraint => true
  | _ => false

/-- `Handler.CreateURL`: bind, validate a supplied non-empty short path
(400 on failure, before any store call), call `DB.CreateURL`, map a
"unique constraint" error to 409 and any other error to 500, then cache
the new record under its short path and under its id. -/
def createURLFlow (rand : Nat → Nat → Fin 62) (urls : List URL) (now : Int)
    (newId : String) (req : CreateURLRequest) :
    HResp × List CacheOp × List URL :=
  if pathSupplied req.shortPath &&
      !(isValidShortPath (req.shortPath.getD "")) then
    (HResp.badRequest, [], urls)
  else
    match CreateURL rand urls now newId req with
    | Except.error e =>
      (if genErrMentionsUniqueConstraint e then HResp.conflict
       else HResp.serverError, [], urls)
    | Except.ok (u, urls') =>
      (HResp.created u,
       [CacheOp.setByPath u.shortPath u, CacheOp.setById u.id u], urls')

/-- `Handler.GetURL` (GET /urls/:id): try the cache's by-id namespace;
on a miss or cache error read the store; absent ⇒ 404; present ⇒ cache
the record by id and by short path, answer 200. -/
def getURLFlow (cr : CacheRead) (urls : List URL) (id : String) :
    HResp × List CacheOp :=
  match cr with
  | CacheRead.hit u => (HResp.okRecord u, [])
  | _ =>
    match GetURLByID urls id with
    | none => (HResp.notFound, [])
    | some u =>
      (HResp.okRecord u,
       [CacheOp.setById id u, CacheOp.setByPath u.shortPath u])

/-- `Handler.ListURLs` parameter clamping: `page < 1 ↦ 1`,
`limit < 1 || limit > 100 ↦ 10`; the clamped pair is what reaches
`DB.ListURLs`. -/
def listURLsParams (page limit : Int) : Int × Int :=
  (if page < 1 then 1 else page,
   if limit < 1 ∨ 100 < limit then 10 else limit)

/-- `Handler.UpdateURL` (PUT /urls/:id): validate a supplied non-empty
short path, call `DB.UpdateURL`; ANY store error ⇒ 500 (this handler has
no "unique constraint" check); `nil` record ⇒ 404; else cache by id and
by short path and answer 200. -/
def updateURLFlow (urls : List URL) (now : Int) (id : String)
    (req : UpdateURLRequest) : HResp × List CacheOp × List URL :=
  if pathSupplied req.shortPath &&
      !(isValidShortPath (req.shortPath.getD "")) then
    (HResp.badRequest, [], urls)
  else
    match UpdateURL urls now id req with
    | (Except.error _, urls') => (HResp.serverError, [], urls')
    | (Except.ok none, urls') => (HResp.notFound, [], urls')
    | (Except.ok (some u), urls') =>
      (HResp.okRecord u,
       [CacheOp.setById id u, CacheOp.setByPath u.shortPath u], urls')

/-- The error mapping of `Handler.PatchURL`: "not found" in the error
text ⇒ 404, then "unique constraint" ⇒ 409, else 500. -/
def patchErrResp : DBErr → HResp
  | DBErr.notFoundMsg => HResp.notFound
  | DBErr.uniqueConstraint => HResp.conflict
  | DBErr.other => HResp.serverError

/-- `Handler.PatchURL` (PATCH /urls/:id): like PUT but with the
404/409 error mapping — and NO `url == nil` check after `DB.UpdateURL`:
when the id matches no row the store returns `(nil, nil)` and the
handler reaches `h.cache.SetURL(ctx, url.ShortPath, url)` with `url`
nil, a nil-pointer dereference (runtime panic). -/
def patchURLFlow (urls : List URL) (now : Int) (id : String)
    (req : UpdateURLRequest) : HResp × List CacheOp × List URL :=
  if pathSupplied req.shortPath &&
      !(isValidShortPath (req.shortPath.getD "")) then
    (HResp.badRequest, [], urls)
  else
    match UpdateURL urls now id req with
    | (Except.error e, urls') => (patchErrResp e, [], urls')
    | (Except.ok none, urls') => (HResp.panicNilDeref, [], urls')
    | (Except.ok (some u), urls') =>
      (HResp.okRecord u,
       [CacheOp.setById id u, CacheOp.setByPath u.shortPath u], urls')

/-- `Handler.DeleteURL` (DELETE /urls/:id): read the record by id first
(to learn its short path); absent ⇒ 404 with no store deletion and no
cache command; present ⇒ `DB.DeleteURL`, then delete the by-id entry
and the by-short-path entry; 204. -/
def deleteURLFlow (urls : List URL) (id : String) :
    HResp × List CacheOp × List URL :=
  match GetURLByID urls id with
  | none => (HResp.notFound, [], urls)
  | some u =>
    match DeleteURL urls id with
    | Except.error _ => (HResp.serverError, [], urls)
    | Except.ok urls' =>
      (HResp.noContent,
       [CacheOp.delById id, CacheOp.delByPath u.shortPath], urls')

/-- Whether the redirect handler's expiry guard fires:
`url.ExpiresAt != nil && url.ExpiresAt.Before(time.Now())`. -/
def isExpiredAt (u : URL) (now : Int) : Bool :=
  match u.expiresAt with
  | some t => decide (t < now)
  | none => false

/-- `Handler.Redirect` (GET /:shortPath): empty path ⇒ 404; try the
cache's by-path namespace; on miss/error read the store (which filters
expired rows) and — if found — cache the record by short path ONLY;
then apply the expiry guard (404 "URL has expired") before rendering
the redirect page. -/
def redirectFlow (cr : CacheRead) (urls : List URL) (now : Int)
    (sp : String) : HResp × List CacheOp :=
  if sp == "" then (HResp.notFound, [])
  else
    match cr with
    | CacheRead.hit u =>
      (if isExpiredAt u now then HResp.notFound else HResp.htmlPage u, [])
    | _ =>
      match GetURLByShortPath urls now sp with
      | none => (HResp.notFound, [])
      | some u =>
        (if isExpiredAt u now then HResp.notFound else HResp.htmlPage u,
         [CacheOp.setByPath sp u])

/-! ## Concrete fixtures for witnesses and counterexamples -/

/-- A degenerate random source: every draw is index 0 ('a'). -/
def rand0 : Nat → Nat → Fin 62 := fun _ _ => 0

/-- A concrete record (expires at instant 100). -/
def url0 : URL :=
  { id := "id0", shortPath := "abc123", destination := "https://example.com"
    title := some "t0", description := none, imageURL := none
    expiresAt := some 100, createdAt := 1, updatedAt := 1 }

/-- A second concrete record, no expiry. -/
def url1 : URL :=
  { id := "id1", shortPath := "other-1", destination := "https://example.org"
    title := none, description := some "d1", imageURL := some "i1"
    expiresAt := none, createdAt := 2, updatedAt := 2 }

/-- An update request touching nothing. -/
def emptyUpdateReq : UpdateURLRequest :=
  { shortPath := none, destination := none, title := none
    description := none, imageURL := none, expiresAt := none }

/-! ## Helper lemmas -/

/-- `generateRandomString` produces exactly the requested length. -/
theorem generateRandomString_length (rand : Nat → Fin 62) (n : Nat) :
    (generateRandomString rand n).length = n := by
  simp [generateRandomString, String.length]

/-- If every attempt from `a` on collides, the resolver loop exhausts. -/
theorem genFrom_exhausted (rand : Nat → Nat → Fin 62) (ex : String → Bool)
    (n a : Nat) (hn : maxAttempts - a = n)
    (h : ∀ i, a ≤ i → i < maxAttempts → ex (resolverCand rand i) = true) :
    generateUniqueShortPathFrom rand (exOk ex) a =
      Except.error GenErr.exhausted := by
  induction n generalizing a with
  | zero =>
    rw [generateUniqueShortPathFrom]
    have : ¬ a < maxAttempts := by omega
    simp [this]
  | succ m ih =>
    rw [generateUniqueShortPathFrom]
    have ha : a < maxAttempts := by omega
    have hcoll := h a (Nat.le_refl a) ha
    simp only [ha, if_true, exOk]
    rw [show generateRandomString (rand a) (minLength + a) =
          resolverCand rand a from rfl, hcoll]
    exact ih (a + 1) (by omega) (fun i hi hlt => h i (by omega) hlt)

/-- If attempt `k` is the first free one at or after `a`, the resolver
loop returns its candidate. -/
theorem genFrom_finds (rand : Nat → Nat → Fin 62) (ex : String → Bool)
    (n a k : Nat) (hn : k - a = n) (hak : a ≤ k) (hk : k < maxAttempts)
    (hfree : ex (resolverCand rand k) = false)
    (hcoll : ∀ i, a ≤ i → i < k → ex (resolverCand rand i) = true) :
    generateUniqueShortPathFrom rand (exOk ex) a =
      Except.ok (resolverCand rand k) := by
  induction n generalizing a with
  | zero =>
    have hak' : a = k := by omega
    subst hak'
    rw [generateUniqueShortPathFrom]
    simp only [hk, if_true, exOk]
    rw [show generateRandomString (rand a) (minLength + a) =
          resolverCand rand a from rfl, hfree]
  | succ m ih =>
    have ha : a < maxAttempts := by omega
    rw [generateUniqueShortPathFrom]
    simp only [ha, if_true, exOk]
    have hcolla := hcoll a (Nat.le_refl a) (by omega)
    rw [show generateRandomString (rand a) (minLength + a) =
          resolverCand rand a from rfl, hcolla]
    exact ih (a + 1) (by omega) (by omega)
      (fun i hi hlt => hcoll i (by omega) hlt)

/-- `WellFormedStore`'s relation is symmetric. -/
theorem wfRel_symm :
    Symmetric (fun u v : URL => u.id ≠ v.id ∧ u.shortPath ≠ v.shortPath) :=
  fun _ _ h => ⟨h.1.symm, h.2.symm⟩

/-- In a well-formed table, lookup by a member's id finds exactly it. -/
theorem GetURLByID_of_mem (urls : List URL) (u : URL)
    (hwf : WellFormedStore urls) (hm : u ∈ urls) :
    GetURLByID urls u.id = some u := by
  unfold GetURLByID
  induction urls with
  | nil => cases hm
  | cons v tl ih =>
    rcases List.pairwise_cons.mp hwf with ⟨hv, htl⟩
    rcases List.mem_cons.mp hm with hm | hm
    · subst hm
      rw [List.find?_cons_of_pos _ (by simp)]
    · have hne : v.id ≠ u.id := (hv u hm).1
      rw [List.find?_cons_of_neg _ (by simp [hne])]
      exact ih htl hm

/-! ## Claim theorems -/

/-- C1: the uniqueness resolver's attempt number `i` (from 0) generates
one candidate of length `6 + i` (so no length is ever retried), returns
the first candidate the store reports absent, and when every attempt
collides it fails with the exhaustion error after exactly 10 attempts
(attempt 9's candidate having length 15). -/
theorem C1_uniqueness_resolver (rand : Nat → Nat → Fin 62)
    (ex : String → Bool) :
    minLength = 6 ∧ maxAttempts = 10 ∧
    (∀ i, (resolverCand rand i).length = 6 + i) ∧
    ((∀ i, i < 10 → ex (resolverCand rand i) = true) →
      generateUniqueShortPath rand (exOk ex) =
        Except.error GenErr.exhausted) ∧
    (∀ k, k < 10 → ex (resolverCand rand k) = false →
      (∀ i, i < k → ex (resolverCand rand i) = true) →
      generateUniqueShortPath rand (exOk ex) =
        Except.ok (resolverCand rand k)) := by
  refine ⟨rfl, rfl, ?_, ?_, ?_⟩
  · intro i
    have := generateRandomString_length (rand i) (minLength + i)
    simpa [resolverCand, minLength] using this
  · intro h
    exact genFrom_exhausted rand ex maxAttempts 0 rfl
      (fun i _ hi => h i hi)
  · intro k hk hfree hcoll
    exact genFrom_finds rand ex k 0 k rfl (Nat.zero_le k) hk hfree
      (fun i _ hi => hcoll i hi)

/-- Witness for C1 at concrete inputs: an all-collide oracle exhausts;
an all-free oracle returns the attempt-0 candidate "aaaaaa"; attempt 9's
candidate has length 15. -/
theorem C1_uniqueness_resolver_witness :
    generateUniqueShortPath rand0 (exOk (fun _ => true)) =
      Except.error GenErr.exhausted ∧
    generateUniqueShortPath rand0 (exOk (fun _ => false)) =
      Except.ok "aaaaaa" ∧
    (resolverCand rand0 9).length = 15 := by
  refine ⟨(C1_uniqueness_resolver rand0 (fun _ => true)).2.2.2.1
      (fun i _ => rfl), ?_, ?_⟩
  · have h := (C1_uniqueness_resolver rand0 (fun _ => false)).2.2.2.2 0
      (by omega) rfl (fun i hi => absurd hi (by omega))
    rw [h]
    rfl
  · have h := ((C1_uniqueness_resolver rand0 (fun _ => false)).2.2.1) 9
    omega

/-- C5: a stored record whose `expires_at` is set and in the past is
invisible to the short-path lookup (the SQL filter
`expires_at IS NULL OR expires_at > datetime('now')` excludes it) but is
still returned by the id lookup, which has no expiry filter. -/
theorem C5_expiry_asymmetry (urls : List URL) (now t : Int) (u : URL)
    (hwf : WellFormedStore urls) (hm : u ∈ urls)
    (he : u.expiresAt = some t) (hp : t < now) :
    GetURLByShortPath urls now u.shortPath = none ∧
    GetURLByID urls u.id = some u := by
  refine ⟨?_, GetURLByID_of_mem urls u hwf hm⟩
  unfold GetURLByShortPath
  rw [List.find?_eq_none]
  intro v hv
  by_cases hvu : v = u
  · subst hvu
    simp only [shortPathRowMatch, he, Bool.and_eq_true, decide_eq_true_eq]
    omega
  · have hne : v.shortPath ≠ u.shortPath :=
      fun h => ((hwf.forall wfRel_symm hm hv (fun h' => hvu h'.symm)).2) h.symm
    simp [shortPathRowMatch, hne]

/-- Witness for C5: `url0` (expiring at 100) at time 200, in the
two-record table `[url0, url1]`. -/
theorem C5_expiry_asymmetry_witness :
    GetURLByShortPath [url0, url1] 200 "abc123" = none ∧
    GetURLByID [url0, url1] "id0" = some url0 :=
  C5_expiry_asymmetry [url0, url1] 200 100 url0
    (by unfold WellFormedStore; decide) (by decide) rfl (by decide)

/-- C6: on a redirect request, a record whose `expires_at` is set and
earlier than the current time is answered with not-found whether it came
from the cache (expiry guard) or would come from the store (expiry
filter); the destination page is only ever rendered for a record that is
unexpired at serving time. -/
theorem C6_redirect_expiry (cr : CacheRead) (urls : List URL) (now : Int)
    (sp : String) :
    (∀ u t, cr = CacheRead.hit u → u.expiresAt = some t → t < now →
      (redirectFlow cr urls now sp).1 = HResp.notFound) ∧
    (∀ v t, (redirectFlow cr urls now sp).1 = HResp.htmlPage v →
      v.expiresAt = some t → now ≤ t) := by
  unfold redirectFlow
  by_cases hsp : sp = ""
  · simp [hsp]
  · rw [if_neg (by simp [hsp])]
    constructor
    · intro u t hcr he hp
      subst hcr
      simp [isExpiredAt, he, hp]
    · intro v t hresp he
      match cr with
      | CacheRead.hit u =>
        replace hresp : (if isExpiredAt u now = true then HResp.notFound
            else HResp.htmlPage u) = HResp.htmlPage v := hresp
        by_cases hexp : isExpiredAt u now = true
        · rw [if_pos hexp] at hresp
          cases hresp
        · rw [if_neg hexp] at hresp
          cases hresp
          simp only [isExpiredAt, he, decide_eq_true_eq] at hexp
          omega
      | CacheRead.miss | CacheRead.failed =>
        replace hresp : (match GetURLByShortPath urls now sp with
            | none => (HResp.notFound, ([] : List CacheOp))
            | some u => (if isExpiredAt u now = true then HResp.notFound
                else HResp.htmlPage u, [CacheOp.setByPath sp u])).1
              = HResp.htmlPage v := hresp
        cases hdb : GetURLByShortPath urls now sp with
        | none => rw [hdb] at hresp; cases hresp
        | some u =>
          rw [hdb] at hresp
          replace hresp : (if isExpiredAt u now = true then HResp.notFound
              else HResp.htmlPage u) = HResp.htmlPage v := hresp
          by_cases hexp : isExpiredAt u now = true
          · rw [if_pos hexp] at hresp
            cases hresp
          · rw [if_neg hexp] at hresp
            cases hresp
            simp only [isExpiredAt, he, decide_eq_true_eq] at hexp
            omega

/-- Witness for C6: a cache hit on `url0` (expiring at 100) at time 200
is answered not-found; at time 5 the same hit serves the page, and the
theorem bounds its expiry. -/
theorem C6_redirect_expiry_witness :
    (redirectFlow (CacheRead.hit url0) [] 200 "abc123").1 = HResp.notFound ∧
    (5 : Int) ≤ 100 :=
  ⟨(C6_redirect_expiry (CacheRead.hit url0) [] 200 "abc123").1 url0 100
      rfl rfl (by decide),
   (C6_redirect_expiry (CacheRead.hit url0) [] 5 "abc123").2 url0 100
      rfl rfl⟩

/-- C2 fails as stated: on a redirect cache miss whose store read finds
the record, the handler issues exactly one cache command — the
by-short-path write — and never touches the by-id namespace
(`Handler.Redirect` calls only `cache.SetURL`, not `cache.SetURLByID`). -/
theorem C2_counterexample :
    GetURLByShortPath [url0] 5 "abc123" = some url0 ∧
    (redirectFlow CacheRead.miss [url0] 5 "abc123").2 =
      [CacheOp.setByPath "abc123" url0] ∧
    ((redirectFlow CacheRead.miss [url0] 5 "abc123").2.all
      (fun op => !(CacheOp.writesById op))) = true :=
  ⟨rfl, rfl, rfl⟩

/-- C2 amended: on a cache miss or cache error followed by a successful
store read, get-by-id populates both cache key-spaces (by id, then by
short path) before returning the record; the redirect handler populates
only the by-short-path entry. -/
theorem C2_cache_population (cr : CacheRead) (urls : List URL)
    (id sp : String) (now : Int) (u : URL)
    (hcr : cr = CacheRead.miss ∨ cr = CacheRead.failed) :
    (GetURLByID urls id = some u →
      getURLFlow cr urls id =
        (HResp.okRecord u,
         [CacheOp.setById id u, CacheOp.setByPath u.shortPath u])) ∧
    (GetURLByShortPath urls now sp = some u → sp ≠ "" →
      (redirectFlow cr urls now sp).2 = [CacheOp.setByPath sp u]) := by
  constructor
  · intro hdb
    rcases hcr with hcr | hcr <;> subst hcr <;>
      simp [getURLFlow, hdb]
  · intro hdb hsp
    rcases hcr with hcr | hcr <;> subst hcr <;>
      simp [redirectFlow, hsp, hdb]

/-- Witness for C2 amended, on the one-record table `[url0]` at time 5. -/
theorem C2_cache_population_witness :
    getURLFlow CacheRead.miss [url0] "id0" =
      (HResp.okRecord url0,
       [CacheOp.setById "id0" url0, CacheOp.setByPath "abc123" url0]) ∧
    (redirectFlow CacheRead.failed [url0] 5 "abc123").2 =
      [CacheOp.setByPath "abc123" url0] :=
  ⟨(C2_cache_population CacheRead.miss [url0] "id0" "abc123" 5 url0
      (Or.inl rfl)).1 rfl,
   (C2_cache_population CacheRead.failed [url0] "id0" "abc123" 5 url0
      (Or.inr rfl)).2 rfl (by decide)⟩

/-- Dropping a present element makes the filtered list strictly shorter. -/
theorem length_filter_lt (l : List URL) (p : URL → Bool) (u : URL)
    (hm : u ∈ l) (hp : p u = false) : (l.filter p).length < l.length := by
  induction l with
  | nil => cases hm
  | cons v tl ih =>
    rcases List.mem_cons.mp hm with h | h
    · subst h
      have := List.length_filter_le p tl
      simp [List.filter_cons, hp]
      omega
    · by_cases hv : p v = true
      · simpa [List.filter_cons, hv] using ih h
      · have := List.length_filter_le p tl
        simp only [Bool.not_eq_true] at hv
        simp [List.filter_cons, hv]
        omega

/-- C4: delete first reads the record by id; if absent it answers
not-found, leaves the table untouched and issues no cache command;
otherwise it deletes the row and then removes both cache entries, the
by-id one and the one keyed by the learned short path. -/
theorem C4_delete_flow (urls : List URL) (id : String) :
    (GetURLByID urls id = none →
      deleteURLFlow urls id = (HResp.notFound, [], urls)) ∧
    (∀ u, GetURLByID urls id = some u →
      deleteURLFlow urls id =
        (HResp.noContent,
         [CacheOp.delById id, CacheOp.delByPath u.shortPath],
         urls.filter (fun v => !(v.id == id)))) := by
  constructor
  · intro h
    unfold deleteURLFlow
    rw [h]
  · intro u h
    have h' : urls.find? (fun v => v.id == id) = some u := h
    have hmem : u ∈ urls := List.mem_of_find?_eq_some h'
    have hpu : (u.id == id) = true := by
      simpa using List.find?_some h'
    have hlt : (urls.filter (fun v => !(v.id == id))).length < urls.length :=
      length_filter_lt urls _ u hmem (by simp [hpu])
    have hdel : DeleteURL urls id =
        Except.ok (urls.filter (fun v => !(v.id == id))) := by
      unfold DeleteURL
      rw [if_neg (by simp only [beq_iff_eq]; omega)]
    unfold deleteURLFlow
    rw [h, hdel]

/-- Witness for C4: deleting `id0` from `[url0, url1]` deletes the row
and both cache entries; deleting it from `[url1]` is a pure not-found. -/
theorem C4_delete_flow_witness :
    deleteURLFlow [url0, url1] "id0" =
      (HResp.noContent,
       [CacheOp.delById "id0", CacheOp.delByPath "abc123"], [url1]) ∧
    deleteURLFlow [url1] "id0" = (HResp.notFound, [], [url1]) :=
  ⟨(C4_delete_flow [url0, url1] "id0").2 url0 rfl,
   (C4_delete_flow [url1] "id0").1 rfl⟩

/-- An update request setting the title and explicitly clearing
`expires_at`, leaving every other field absent. -/
def updReq0 : UpdateURLRequest :=
  { shortPath := none, destination := none, title := some "new"
    description := none, imageURL := none, expiresAt := some none }

/-- C3: a successful update of an existing record changes exactly the
fields present in the request — an absent field keeps its stored value,
as do `id` and `created_at`; `expires_at` as explicit null is cleared,
as a value is set, and omitted is left unchanged (`updated_at` is always
refreshed). -/
theorem C3_partial_update (urls : List URL) (now : Int) (id : String)
    (req : UpdateURLRequest) (u u' : URL)
    (hu : urls.find? (fun v => v.id == id) = some u)
    (h : (UpdateURL urls now id req).1 = Except.ok (some u')) :
    u'.id = u.id ∧ u'.createdAt = u.createdAt ∧
    (req.shortPath = none → u'.shortPath = u.shortPath) ∧
    (∀ s, req.shortPath = some s → u'.shortPath = s) ∧
    (req.destination = none → u'.destination = u.destination) ∧
    (∀ d, req.destination = some d → u'.destination = d) ∧
    (req.title = none → u'.title = u.title) ∧
    (∀ t, req.title = some t → u'.title = some t) ∧
    (req.description = none → u'.description = u.description) ∧
    (∀ d, req.description = some d → u'.description = some d) ∧
    (req.imageURL = none → u'.imageURL = u.imageURL) ∧
    (∀ i, req.imageURL = some i → u'.imageURL = some i) ∧
    (req.expiresAt = none → u'.expiresAt = u.expiresAt) ∧
    (req.expiresAt = some none → u'.expiresAt = none) ∧
    (∀ t, req.expiresAt = some (some t) → u'.expiresAt = some t) ∧
    u'.updatedAt = now := by
  have heq : u' = applyUpdate u req now := by
    unfold UpdateURL at h
    rw [hu] at h
    replace h : (if (urls.any fun v => !(v.id == id) && v.shortPath ==
          (applyUpdate u req now).shortPath) = true
        then (Except.error DBErr.uniqueConstraint, urls)
        else (Except.ok (some (applyUpdate u req now)),
          urls.map (fun v => if v.id == id then applyUpdate u req now
            else v))).1
        = Except.ok (some u') := h
    by_cases hc : (urls.any fun v => !(v.id == id) && v.shortPath ==
        (applyUpdate u req now).shortPath) = true
    · rw [if_pos hc] at h
      simp at h
    · rw [if_neg hc] at h
      simp at h
      exact h.symm
  subst heq
  refine ⟨rfl, rfl, ?_, ?_, ?_, ?_, ?_, ?_, ?_, ?_, ?_, ?_, ?_, ?_, ?_,
    rfl⟩ <;>
    first
      | (intro hreq; simp [applyUpdate, hreq])
      | (intro x hreq; simp [applyUpdate, hreq])

/-- Witness for C3: applying `updReq0` (title set, `expires_at`
explicitly null) to `url0` in the table `[url0]` at time 5. -/
theorem C3_partial_update_witness :
    (applyUpdate url0 updReq0 5).title = some "new" ∧
    (applyUpdate url0 updReq0 5).expiresAt = none ∧
    (applyUpdate url0 updReq0 5).destination = url0.destination ∧
    (applyUpdate url0 updReq0 5).shortPath = url0.shortPath ∧
    (applyUpdate url0 updReq0 5).createdAt = url0.createdAt := by
  have h := C3_partial_update [url0] 5 "id0" updReq0 url0
    (applyUpdate url0 updReq0 5) rfl rfl
  exact ⟨h.2.2.2.2.2.2.2.1 "new" rfl, h.2.2.2.2.2.2.2.2.2.2.2.2.2.1 rfl,
    h.2.2.2.2.1 rfl, h.2.2.1 rfl, h.2.1⟩

/-- Wrapping is the identity on values already in the int64 range. -/
theorem goIntWrap_eq_self (n : Int) (h1 : -9223372036854775808 ≤ n)
    (h2 : n < 9223372036854775808) : goIntWrap n = n := by
  unfold goIntWrap
  rw [Int.emod_eq_of_lt (by omega) (by omega)]
  omega

/-- C10 fails as stated: `?page=9223372036854775807&limit=10` parses
(`strconv.Atoi` accepts MaxInt64), survives the clamp — which bounds
`page` only from below — and `DB.ListURLs` computes
`9223372036854775806 * 10` in wrapping Go `int`, giving offset -20:
the computed offset CAN be negative. -/
theorem C10_counterexample :
    listURLsParams 9223372036854775807 10 = (9223372036854775807, 10) ∧
    listOffset 9223372036854775807 10 = -20 ∧
    listOffset 9223372036854775807 10 < 0 :=
  ⟨rfl, by decide, by decide⟩

/-- C10 amended: the pair `Handler.ListURLs` passes to the store is
clamped — `page < 1` becomes 1 and an out-of-range limit becomes 10 —
so `1 ≤ page` and `1 ≤ limit ≤ 100`; and the offset `(page-1)*limit`
computed by `DB.ListURLs` is nonnegative whenever that product stays
below 2^63 (its mathematical value is always nonnegative, but Go's
64-bit `int` multiplication wraps for page values near MaxInt64, which
parse and pass the lower-bound-only clamp). The bound
`page < 9223372036854775808` holds for every Atoi-parsed value. -/
theorem C10_list_clamping (page limit : Int) :
    1 ≤ (listURLsParams page limit).1 ∧
    1 ≤ (listURLsParams page limit).2 ∧
    (listURLsParams page limit).2 ≤ 100 ∧
    (page < 1 → (listURLsParams page limit).1 = 1) ∧
    (1 ≤ page → (listURLsParams page limit).1 = page) ∧
    ((limit < 1 ∨ 100 < limit) → (listURLsParams page limit).2 = 10) ∧
    (1 ≤ limit → limit ≤ 100 → (listURLsParams page limit).2 = limit) ∧
    (page < 9223372036854775808 →
      ((listURLsParams page limit).1 - 1) * (listURLsParams page limit).2 <
        9223372036854775808 →
      0 ≤ listOffset (listURLsParams page limit).1
        (listURLsParams page limit).2) := by
  refine ⟨?_, ?_, ?_, ?_, ?_, ?_, ?_, ?_⟩
  · simp only [listURLsParams]
    split_ifs <;> omega
  · simp only [listURLsParams]
    split_ifs <;> omega
  · simp only [listURLsParams]
    split_ifs <;> omega
  · intro h
    simp only [listURLsParams]
    rw [if_pos h]
  · intro h
    simp only [listURLsParams]
    rw [if_neg (by omega)]
  · intro h
    simp only [listURLsParams]
    rw [if_pos h]
  · intro h1 h2
    simp only [listURLsParams]
    have hn : ¬(limit < 1 ∨ 100 < limit) := by omega
    rw [if_neg hn]
  · intro hpage hprod
    have hp1 : 1 ≤ (listURLsParams page limit).1 := by
      simp only [listURLsParams]
      split_ifs <;> omega
    have hl1 : 1 ≤ (listURLsParams page limit).2 := by
      simp only [listURLsParams]
      split_ifs <;> omega
    have hp63 : (listURLsParams page limit).1 < 9223372036854775808 := by
      simp only [listURLsParams]
      split_ifs <;> omega
    have hge : 0 ≤ ((listURLsParams page limit).1 - 1) *
        (listURLsParams page limit).2 :=
      mul_nonneg (by omega) (by omega)
    unfold listOffset
    rw [goIntWrap_eq_self ((listURLsParams page limit).1 - 1) (by omega)
      (by omega)]
    rw [goIntWrap_eq_self _ (by omega) hprod]
    exact hge

/-- Witness for C10 amended at page -5, limit 200: both are replaced
and the (non-overflowing) offset is nonnegative. -/
theorem C10_list_clamping_witness :
    (listURLsParams (-5) 200).1 = 1 ∧ (listURLsParams (-5) 200).2 = 10 ∧
    0 ≤ listOffset (listURLsParams (-5) 200).1 (listURLsParams (-5) 200).2 :=
  ⟨(C10_list_clamping (-5) 200).2.2.2.1 (by omega),
   (C10_list_clamping (-5) 200).2.2.2.2.2.1 (Or.inr (by omega)),
   (C10_list_clamping (-5) 200).2.2.2.2.2.2.2 (by omega) (by decide)⟩

/-- An update request moving the short path onto `url1`'s path. -/
def reqClash : UpdateURLRequest :=
  { shortPath := some "other-1", destination := none, title := none
    description := none, imageURL := none, expiresAt := none }

/-- A create request asking for `url1`'s short path. -/
def reqCreateClash : CreateURLRequest :=
  { shortPath := some "other-1", destination := "https://example.net"
    title := none, description := none, imageURL := none
    expiresAt := none }

/-- C7 fails as stated for the PUT update handler: updating `url0`'s
short path to the one `url1` holds makes the store raise the unique-
constraint violation, and `Handler.UpdateURL` — which has no
"unique constraint" check — answers with the generic server error, not
with the conflict outcome the claim requires. -/
theorem C7_counterexample :
    (UpdateURL [url0, url1] 5 "id0" reqClash).1 =
      Except.error DBErr.uniqueConstraint ∧
    (updateURLFlow [url0, url1] 5 "id0" reqClash).1 = HResp.serverError ∧
    HResp.serverError ≠ HResp.conflict :=
  ⟨rfl, rfl, by decide⟩

/-- C7 amended: create and patch surface a unique-constraint write
failure as the conflict outcome, distinguishable from validation
failures and from other server errors; the PUT update handler instead
maps every store error, unique-constraint violations included, to the
generic server error. -/
theorem C7_conflict_mapping (rand : Nat → Nat → Fin 62) (urls : List URL)
    (now : Int) (newId id : String) (reqC : CreateURLRequest)
    (reqU : UpdateURLRequest) :
    ((pathSupplied reqC.shortPath &&
        !(isValidShortPath (reqC.shortPath.getD ""))) = false →
      CreateURL rand urls now newId reqC =
        Except.error (GenErr.store DBErr.uniqueConstraint) →
      (createURLFlow rand urls now newId reqC).1 = HResp.conflict) ∧
    ((pathSupplied reqU.shortPath &&
        !(isValidShortPath (reqU.shortPath.getD ""))) = false →
      (UpdateURL urls now id reqU).1 =
        Except.error DBErr.uniqueConstraint →
      (patchURLFlow urls now id reqU).1 = HResp.conflict ∧
      (updateURLFlow urls now id reqU).1 = HResp.serverError) ∧
    HResp.conflict ≠ HResp.badRequest ∧
    HResp.conflict ≠ HResp.serverError := by
  refine ⟨?_, ?_, by decide, by decide⟩
  · intro hv hdb
    unfold createURLFlow
    rw [Bool.eq_false_iff] at hv
    rw [if_neg hv, hdb]
    rfl
  · intro hv hdb
    rw [Bool.eq_false_iff] at hv
    have hdb' : UpdateURL urls now id reqU =
        (Except.error DBErr.uniqueConstraint,
         (UpdateURL urls now id reqU).2) := by
      rcases hu : UpdateURL urls now id reqU with ⟨r, l⟩
      rw [hu] at hdb
      simp at hdb
      rw [hdb]
    constructor
    · unfold patchURLFlow
      rw [if_neg hv, hdb']
      rfl
    · unfold updateURLFlow
      rw [if_neg hv, hdb']

/-- Witness for C7 amended: a create asking for `url1`'s taken path is
answered 409; a patch moving `url0` onto it is answered 409. -/
theorem C7_conflict_mapping_witness :
    (createURLFlow rand0 [url1] 5 "id-new" reqCreateClash).1 =
      HResp.conflict ∧
    (patchURLFlow [url0, url1] 5 "id0" reqClash).1 = HResp.conflict :=
  ⟨(C7_conflict_mapping rand0 [url1] 5 "id-new" "id0" reqCreateClash
      reqClash).1 (by decide) rfl,
   ((C7_conflict_mapping rand0 [url0, url1] 5 "id-new" "id0" reqCreateClash
      reqClash).2.1 (by decide) rfl).1⟩

/-- C8: with a well-formed id matching no stored record, the PUT update
handler answers not-found — but `Handler.PatchURL` never checks the nil
record the store hands back for a missing id, and dereferences it
(`url.ShortPath`): a runtime panic instead of the 404 its own
documentation (`@Failure 404`) and dead "not found" error branch intend. -/
theorem C8_patch_missing_nil_check :
    GetURLByID [url0] "no-such-id" = none ∧
    (updateURLFlow [url0] 5 "no-such-id" emptyUpdateReq).1 =
      HResp.notFound ∧
    (patchURLFlow [url0] 5 "no-such-id" emptyUpdateReq).1 =
      HResp.panicNilDeref ∧
    HResp.panicNilDeref ≠ HResp.notFound :=
  ⟨rfl, rfl, rfl, by decide⟩

/-- Allowed short-path characters are ASCII, hence one UTF-8 byte. -/
theorem charUtf8Size_of_allowed (c : Char) (h : isAllowedChar c = true) :
    charUtf8Size c = 1 := by
  simp only [isAllowedChar, Bool.or_eq_true, Bool.and_eq_true,
    decide_eq_true_eq, beq_iff_eq] at h
  unfold charUtf8Size
  rcases h with ((⟨h1, h2⟩ | ⟨h1, h2⟩) | ⟨h1, h2⟩) | h1 <;>
    rw [if_pos (by omega)]

/-- On strings of allowed characters, Go's byte length is the character
count. -/
theorem goStrLen_of_allowed (l : List Char)
    (h : ∀ c ∈ l, isAllowedChar c = true) :
    (l.map charUtf8Size).sum = l.length := by
  induction l with
  | nil => rfl
  | cons c tl ih =>
    simp only [List.map_cons, List.sum_cons, List.length_cons]
    rw [charUtf8Size_of_allowed c (h c (List.mem_cons_self c tl)),
      ih (fun x hx => h x (List.mem_cons_of_mem c hx))]
    omega

/-- `isReservedPath` answers false exactly when the lowercased path
differs from every reserved word. -/
theorem isReservedPath_eq_false_iff (s : String) :
    isReservedPath s = false ↔ ∀ r ∈ reservedPaths, goStrToLower s ≠ r := by
  constructor
  · intro h r hr he
    have hres : isReservedPath s = true := by
      rw [isReservedPath, List.any_eq_true]
      exact ⟨r, hr, by simp [he]⟩
    rw [hres] at h
    cases h
  · intro h
    rw [Bool.eq_false_iff, Ne, isReservedPath, List.any_eq_true]
    rintro ⟨r, hr, he⟩
    exact h r hr (by simpa using he)

/-- An update request explicitly supplying the empty short path. -/
def reqEmptyPath : UpdateURLRequest :=
  { shortPath := some "", destination := none, title := none
    description := none, imageURL := none, expiresAt := none }

/-- C9 fails as stated on the explicitly supplied empty short path: ""
falls outside the claimed 1–255-character condition, yet an update
supplying it is not rejected — the `*req.ShortPath != ""` guard skips
validation, the store write proceeds, and the record's short path
becomes "". -/
theorem C9_counterexample :
    (reqEmptyPath.shortPath = some "" ∧ ¬ 1 ≤ String.length "") ∧
    (updateURLFlow [url0] 5 "id0" reqEmptyPath).1 =
      HResp.okRecord (applyUpdate url0 reqEmptyPath 5) ∧
    (updateURLFlow [url0] 5 "id0" reqEmptyPath).2.2 =
      [applyUpdate url0 reqEmptyPath 5] ∧
    (applyUpdate url0 reqEmptyPath 5).shortPath = "" :=
  ⟨⟨rfl, by decide⟩, rfl, rfl, rfl⟩

/-- C9 amended: a NON-EMPTY custom short path passes `isValidShortPath`
iff it is 1–255 characters long, drawn from {a–z, A–Z, 0–9, '-'}, and
differs from every reserved path case-insensitively (for such strings
Go's byte length equals the character count); a supplied non-empty path
failing this is rejected with the client validation error by create,
update and patch before any store write (table returned unchanged, no
cache command). An empty supplied path is exempt from validation: create
treats it as absent and generates a path; update and patch pass it to
the store. -/
theorem C9_short_path_validation (s : String) (rand : Nat → Nat → Fin 62)
    (urls : List URL) (now : Int) (newId id : String)
    (reqC : CreateURLRequest) (reqU : UpdateURLRequest) :
    (isValidShortPath s = true ↔
      (1 ≤ s.length ∧ s.length ≤ 255 ∧
       (∀ c ∈ s.data, isAllowedChar c = true) ∧
       (∀ r ∈ reservedPaths, goStrToLower s ≠ r))) ∧
    (∀ s', reqU.shortPath = some s' → s' ≠ "" →
      isValidShortPath s' = false →
      updateURLFlow urls now id reqU = (HResp.badRequest, [], urls) ∧
      patchURLFlow urls now id reqU = (HResp.badRequest, [], urls)) ∧
    (∀ s', reqC.shortPath = some s' → s' ≠ "" →
      isValidShortPath s' = false →
      createURLFlow rand urls now newId reqC =
        (HResp.badRequest, [], urls)) := by
  refine ⟨?_, ?_, ?_⟩
  · unfold isValidShortPath
    constructor
    · intro h
      split_ifs at h with h1 h2 h3
      simp only [Bool.not_eq_true, Bool.not_eq_eq_eq_not, Bool.not_true,
        Bool.not_eq_false] at h2
      simp only [Bool.not_eq_true] at h3
      have hall : ∀ c ∈ s.data, isAllowedChar c = true :=
        List.all_eq_true.mp h2
      have hlen : goStrLen s = s.length :=
        goStrLen_of_allowed s.data hall
      refine ⟨by omega, by omega, hall,
        (isReservedPath_eq_false_iff s).mp h3⟩
    · rintro ⟨hl, hu, hall, hres⟩
      have hlen : goStrLen s = s.length :=
        goStrLen_of_allowed s.data hall
      rw [if_neg (by omega),
        if_neg (by simp [List.all_eq_true.mpr hall]),
        if_neg (by simp [(isReservedPath_eq_false_iff s).mpr hres])]
  · intro s' hreq hs' hval
    have hcond : (pathSupplied reqU.shortPath &&
        !(isValidShortPath (reqU.shortPath.getD ""))) = true := by
      simp [pathSupplied, hreq, hval, hs']
    constructor
    · unfold updateURLFlow
      rw [if_pos hcond]
    · unfold patchURLFlow
      rw [if_pos hcond]
  · intro s' hreq hs' hval
    have hcond : (pathSupplied reqC.shortPath &&
        !(isValidShortPath (reqC.shortPath.getD ""))) = true := by
      simp [pathSupplied, hreq, hval, hs']
    unfold createURLFlow
    rw [if_pos hcond]

/-- A create request supplying an invalid custom path (underscore and
bang are outside the allowed charset). -/
def reqBadCreate : CreateURLRequest :=
  { shortPath := some "bad_path!", destination := "https://example.net"
    title := none, description := none, imageURL := none
    expiresAt := none }

/-- An update request supplying the same invalid custom path. -/
def reqBadUpdate : UpdateURLRequest :=
  { shortPath := some "bad_path!", destination := none, title := none
    description := none, imageURL := none, expiresAt := none }

/-- Witness for C9 amended: "abc-123" validates, the reserved word "API"
does not, and flows supplying "bad_path!" are rejected with the table
unchanged. -/
theorem C9_short_path_validation_witness :
    isValidShortPath "abc-123" = true ∧
    updateURLFlow [url0] 5 "id0" reqBadUpdate =
      (HResp.badRequest, [], [url0]) ∧
    createURLFlow rand0 [url0] 5 "id-new" reqBadCreate =
      (HResp.badRequest, [], [url0]) := by
  refine ⟨?_, ?_, ?_⟩
  · exact (C9_short_path_validation "abc-123" rand0 [url0] 5 "id-new" "id0"
      reqBadCreate reqBadUpdate).1.mpr
      ⟨by decide, by decide, by decide, by decide⟩
  · exact ((C9_short_path_validation "abc-123" rand0 [url0] 5 "id-new" "id0"
      reqBadCreate reqBadUpdate).2.1 "bad_path!" rfl (by decide)
      (by decide)).1
  · exact (C9_short_path_validation "abc-123" rand0 [url0] 5 "id-new" "id0"
      reqBadCreate reqBadUpdate).2.2 "bad_path!" rfl (by decide) (by decide)

end UrlShortener
